import Mathlib

/-!
Shallow embedding of the reconciliation core of the MySQL NDB operator
(mronstro/mysql-ndb-operator) together with proofs about it.

The Go sources embedded here:
* `pkg/controllers/sync_context.go` — the rollout loops
  `ensureDataNodeConfigVersion` and `ensureManagementServerConfigVersion`;
* `pkg/ndbconfig` (config builder) — `GetConfigString`, the
  `GetConfigVersion` / `GetHostnameSuffix` template functions;
* `pkg/apis/ndbcontroller/v1alpha1/validation.go` — `HasValidSpec`,
  `IsValidSpecUpdate`;
* the MySQLD StatefulSet controller — `HandleScaleDown`;
* the status projectors — `statusEqual`, `calculateNdbClusterStatus`
  (the v1 and the v1alpha1 variants).

Remote calls (management protocol, SQL, Kubernetes API, DNS) are modelled
as explicit oracle arguments: each embedded function takes the outcome of
every remote call it may issue as a parameter, and returns next to its
verdict a trace of the mutating calls it issued.  Go `int32`/`int64`
values are modelled as `Int` with explicit two's-complement wrapping where
an arithmetic operation can overflow.
-/

/-- Verdict of a single reconciliation step, mirroring the Go `syncResult`
interface with its four constructors `continueProcessing`,
`finishProcessing`, `requeueInSeconds` and `errorWhileProcessing`. -/
inductive syncResult where
  | continueProcessing : syncResult
  | finishProcessing : syncResult
  | requeueInSeconds (seconds : Nat) : syncResult
  | errorWhileProcessing (errMsg : String) : syncResult
deriving DecidableEq, Repr

/-! ## Management-server rollout (`ensureManagementServerConfigVersion`) -/

/-- Output of one tick of the management-server rollout: the verdict, the
node ids for which a `StopNodes([nodeId])` request was issued, and the
subset of those requests that came back with an error (in the Go code the
error is only logged: `klog.Errorf("Error stopping management node %v", err)`). -/
structure MgmtRolloutOutcome where
  result : syncResult
  stops : List Nat
  stopFailures : List Nat
deriving DecidableEq, Repr

/-- Inner loop of `ensureManagementServerConfigVersion`
(`sync_context.go:401-438`), iterating `nodeID` upwards with `remaining`
node ids still to visit.  `connectOk nodeId` models whether
`connectToManagementServer(nodeID)` succeeds, `getCV nodeId` the result of
`mgmClient.GetConfigVersion()` on that management server (`none` = error),
and `stopOk nodeId` whether the `StopNodes` request is accepted. -/
def mgmtConfigVersionLoop (wantedGeneration : Nat) (connectOk : Nat → Bool)
    (getCV : Nat → Option Nat) (stopOk : Nat → Bool) :
    Nat → Nat → MgmtRolloutOutcome
  | _, 0 =>
    -- All Management Servers have the latest config: continue processing.
    ⟨syncResult.continueProcessing, [], []⟩
  | nodeID, remaining + 1 =>
    if connectOk nodeID = false then
      ⟨syncResult.errorWhileProcessing "failed to connect to management server", [], []⟩
    else
      match getCV nodeID with
      | none =>
        ⟨syncResult.errorWhileProcessing "GetConfigVersion failed", [], []⟩
      | some version =>
        if version = wantedGeneration then
          -- Desired config version already: disconnect and continue the loop.
          mgmtConfigVersionLoop wantedGeneration connectOk getCV stopOk (nodeID + 1) remaining
        else
          -- Stop this single node; a StopNodes error is only logged, the
          -- verdict is requeueInSeconds(5) either way.
          ⟨syncResult.requeueInSeconds 5, [nodeID],
            if stopOk nodeID then [] else [nodeID]⟩

/-- `ensureManagementServerConfigVersion` visits the management node ids
`1 .. managementNodeCount`. -/
def ensureManagementServerConfigVersion (wantedGeneration : Nat)
    (managementNodeCount : Nat) (connectOk : Nat → Bool)
    (getCV : Nat → Option Nat) (stopOk : Nat → Bool) : MgmtRolloutOutcome :=
  mgmtConfigVersionLoop wantedGeneration connectOk getCV stopOk 1 managementNodeCount

/-! ## Data-node rollout (`ensureDataNodeConfigVersion`) -/

/-- Output of one tick of the data-node rollout: the verdict and the
argument of every `StopNodes` call issued during the tick. -/
structure DataRolloutOutcome where
  result : syncResult
  stopCalls : List (List Nat)
deriving DecidableEq, Repr

/-- The candidate set of pass `i`: the i-th node of every node group
(`candidateNodeIds = append(candidateNodeIds, nodesInNodegroup[i])`). -/
def candidateNodeIds (groups : List (List Nat)) (i : Nat) : List Nat :=
  groups.map (fun nodesInNodegroup => nodesInNodegroup.getD i 0)

/-- The inner candidate scan of `ensureDataNodeConfigVersion`
(`sync_context.go:308-320`): query `GetConfigVersion(nodeID)` for every
candidate; `none` when some query fails (the Go code then returns
`errorWhileProcessing`), otherwise the sublist of candidates whose running
generation differs from the wanted one, in candidate order. -/
def collectNodesWithOldConfig (wantedGeneration : Nat)
    (getCV : Nat → Option Nat) : List Nat → Option (List Nat)
  | [] => some []
  | nodeID :: rest =>
    match getCV nodeID with
    | none => none
    | some nodeConfigGeneration =>
      match collectNodesWithOldConfig wantedGeneration getCV rest with
      | none => none
      | some olds =>
        some (if wantedGeneration ≠ nodeConfigGeneration then nodeID :: olds else olds)

/-- Pass loop of `ensureDataNodeConfigVersion` (`sync_context.go:301-341`):
`i` is the current pass, `remainingPasses` counts down from the redundancy
level.  `stopOk` models whether a `StopNodes` request on the given node
set is accepted; unlike the management path, a failing `StopNodes` here is
returned as an error verdict. -/
def dataNodeConfigVersionLoop (wantedGeneration : Nat) (groups : List (List Nat))
    (getCV : Nat → Option Nat) (stopOk : List Nat → Bool) :
    Nat → Nat → DataRolloutOutcome
  | _, 0 =>
    -- All data nodes have the desired config version.
    ⟨syncResult.continueProcessing, []⟩
  | i, remainingPasses + 1 =>
    match collectNodesWithOldConfig wantedGeneration getCV (candidateNodeIds groups i) with
    | none => ⟨syncResult.errorWhileProcessing "GetConfigVersion failed", []⟩
    | some [] =>
      -- Candidates of this pass all have the wanted generation: next pass.
      dataNodeConfigVersionLoop wantedGeneration groups getCV stopOk (i + 1) remainingPasses
    | some (n :: olds) =>
      -- Stop all the data nodes that have an old config version, in one call.
      if stopOk (n :: olds) then ⟨syncResult.requeueInSeconds 5, [n :: olds]⟩
      else ⟨syncResult.errorWhileProcessing "StopNodes failed", [n :: olds]⟩

/-- `ensureDataNodeConfigVersion` (`sync_context.go:272-346`).
`groups` models `clusterState.GetNodesGroupedByNodegroup()` (`none` is the
Go `nil`, reported as an internal error); each sub-list holds the node ids
of one node group, sorted, of length `redundancyLevel`, and the list is
sorted by node group.  `connectMgmOk` models `connectToManagementServer()`. -/
def ensureDataNodeConfigVersion (wantedGeneration redundancyLevel : Nat)
    (connectMgmOk : Bool) (groups : Option (List (List Nat)))
    (getCV : Nat → Option Nat) (stopOk : List Nat → Bool) : DataRolloutOutcome :=
  if connectMgmOk = false then
    ⟨syncResult.errorWhileProcessing "failed to connect to management server", []⟩
  else
    match groups with
    | none =>
      ⟨syncResult.errorWhileProcessing
        "internal error: could not extract nodes and node groups from cluster status", []⟩
    | some gs => dataNodeConfigVersionLoop wantedGeneration gs getCV stopOk 0 redundancyLevel

/-! ## NdbCluster data model (`pkg/apis/ndbcontroller/v1alpha1`) -/

/-- `spec.mysqld` block of an NdbCluster resource. -/
structure MysqldSpec where
  nodeCount : Int
  rootPasswordSecretName : String
  rootHost : String
  myCnf : String
deriving DecidableEq, Repr

/-- `NdbClusterSpec`.  The two free-form tuning maps are modelled as the
sorted key/value sequence the Go `text/template` iterates over. -/
structure NdbClusterSpec where
  redundancyLevel : Int
  nodeCount : Int
  mysqld : Option MysqldSpec
  freeAPISlots : Int
  dataNodeConfig : List (String × String)
  managementNodeConfig : List (String × String)
deriving DecidableEq, Repr

/-- The NdbCluster resource: object metadata plus its spec. -/
structure NdbCluster where
  name : String
  nsName : String
  generation : Int
  spec : NdbClusterSpec
deriving DecidableEq, Repr

/-- Modelled from the spec: `GetManagementNodeCount` is defined in the API
types package, which is not among the given sources.  The spec states
"`managementNodeCount` — derived: 1 if `redundancyLevel`=1 else 2". -/
def NdbCluster.GetManagementNodeCount (nc : NdbCluster) : Int :=
  if nc.spec.redundancyLevel = 1 then 1 else 2

/-- Modelled from the spec: `GetMySQLServerNodeCount` is defined in the API
types package, which is not among the given sources.  The spec lists
`mysqlServerCount` as the (optional, defaulted to zero) number of SQL
server nodes of the `mysqld` block. -/
def NdbCluster.GetMySQLServerNodeCount (nc : NdbCluster) : Int :=
  match nc.spec.mysqld with
  | none => 0
  | some mysqld => mysqld.nodeCount

/-- Modelled from the spec: `GetMySQLCnf` (API types package, not among the
given sources) returns the user-supplied `my.cnf` text or the empty
string when there is no `mysqld` block. -/
def NdbCluster.GetMySQLCnf (nc : NdbCluster) : String :=
  match nc.spec.mysqld with
  | none => ""
  | some mysqld => mysqld.myCnf

/-- Modelled from the spec: `GetServiceName` (API types package, not among
the given sources) names the governing service of a node type; the spec's
hostname convention `<resourceName>-<role>-<ordinal>.<serviceName>.<suffix>`
together with `sync_context.go`'s pod name `GetServiceName("mgmd")-<i>`
fixes it as `<resourceName>-<nodeType>`. -/
def NdbCluster.GetServiceName (nc : NdbCluster) (nodeType : String) : String :=
  nc.name ++ "-" ++ nodeType

/-! ## Spec validation (`v1alpha1/validation.go`) -/

/-- `constants.MaxNumberOfNodes`: the spec's invariant caps the total node
count at 145. -/
def MaxNumberOfNodes : Int := 145

/-- The Go check `math.Mod(float64(dataNodeCount), float64(redundancyLevel)) != 0`.
Both operands are `int32` values, hence exactly representable as `float64`;
`math.Mod` then is the exact truncated remainder, which is zero iff the
divisor divides the dividend, and `math.Mod(x, 0)` is NaN, which compares
unequal to 0. -/
def floatModIsNonZero (x y : Int) : Bool :=
  if y = 0 then true else decide (x % y ≠ 0)

/-- Outcome of `configparser.ParseString` (external package): either a
parse error — tagged with whether the message contains
"Non-empty line without section" — or a parsed cnf with its total number
of sections and its number of `mysqld` sections. -/
inductive CnfParseResult where
  | parseError (isMissingSectionErr : Bool) (msg : String)
  | parsed (totalSections mysqldSections : Nat)
deriving DecidableEq, Repr

/-- Error message of the data-node-count multiple check in `HasValidSpec`. -/
def nodeCountMultipleErrMsg : String :=
  "spec.nodeCount should be a multiple of the spec.redundancyLevel"

/-- Error message of the total-node-count check in `HasValidSpec`. -/
def maxNodesErrMsg : String :=
  "Total number of MySQL Cluster nodes should not exceed the allowed maximum of 145"

/-- Error message appended when `spec.mysqld.myCnf` has sections other
than a single `mysqld` one. -/
def myCnfSectionErrMsg : String :=
  "spec.mysqld.myCnf can have only one mysqld section"

/-- `HasValidSpec` (`validation.go:21-92`).  External validators are passed
as oracles: `isDNS1123Errors` models
`validation.IsDNS1123Subdomain` (list of error strings, empty = valid) and
`parseCnf` models `configparser.ParseString`.  The checks run in source
order, each appending its errors; the result is the pair
`(errList == nil, errList)`. -/
def HasValidSpec (isDNS1123Errors : String → List String)
    (parseCnf : String → CnfParseResult) (nc : NdbCluster) :
    Bool × List String :=
  let spec := nc.spec
  let dataNodeCount := spec.nodeCount
  let mysqlServerCount := nc.GetMySQLServerNodeCount
  let managementNodeCount := nc.GetManagementNodeCount
  let numOfFreeApiSlots := spec.freeAPISlots
  -- check if number of data nodes is a multiple of redundancy
  let multipleErrs :=
    if floatModIsNonZero dataNodeCount spec.redundancyLevel then
      [nodeCountMultipleErrMsg]
    else []
  -- check if total number of nodes are not more than the allowed maximum
  let total := managementNodeCount + dataNodeCount + mysqlServerCount + numOfFreeApiSlots
  let totalErrs := if total > MaxNumberOfNodes then [maxNodesErrMsg] else []
  -- check if the MySQL root password secret name has the expected format
  let rootPasswordSecret :=
    match spec.mysqld with
    | none => ""
    | some mysqld => mysqld.rootPasswordSecretName
  let secretErrs :=
    if rootPasswordSecret ≠ "" then isDNS1123Errors rootPasswordSecret else []
  -- validate any passed additional cnf
  let myCnfString := nc.GetMySQLCnf
  let cnfErrs :=
    if myCnfString.length > 0 then
      -- when the parse failed because the optional section header is
      -- missing, try parsing again with a "[mysqld]\n" header
      let retried :=
        match parseCnf myCnfString with
        | CnfParseResult.parseError true _ => parseCnf ("[mysqld]\n" ++ myCnfString)
        | other => other
      match retried with
      | CnfParseResult.parseError _ msg => [msg]
      | CnfParseResult.parsed totalSections mysqldSections =>
        -- accept only one mysqld section in the cnf
        if totalSections > 1 ∨ totalSections ≠ mysqldSections then
          [myCnfSectionErrMsg]
        else []
    else []
  let errList := multipleErrs ++ totalErrs ++ secretErrs ++ cnfErrs
  (errList.isEmpty, errList)

/-- `IsValidSpecUpdate` (`validation.go:94-142`): validates a proposed
update from the existing resource `nc` to the new resource `newNc`. -/
def IsValidSpecUpdate (isDNS1123Errors : String → List String)
    (parseCnf : String → CnfParseResult) (nc newNc : NdbCluster) :
    Bool × List String :=
  if nc.spec.redundancyLevel = 1 then
    -- MySQL Cluster replica = 1 => updating MySQL config via
    -- rolling restart is not possible. Disallow any spec update.
    (false,
      ["operator cannot handle any spec update to a MySQL Cluster whose replica is 1"])
  else
    -- Do not allow updating Spec.NodeCount and Spec.RedundancyLevel
    let nodeCountErrs :=
      if nc.spec.nodeCount ≠ newNc.spec.nodeCount then
        if nc.spec.nodeCount < newNc.spec.nodeCount then
          ["Online add node is not supported by the operator yet"]
        else
          ["spec.NodeCount cannot be reduced once MySQL Cluster has been started"]
      else []
    let redundancyErrs :=
      if nc.spec.redundancyLevel ≠ newNc.spec.redundancyLevel then
        ["spec.redundancyLevel cannot be updated once MySQL Cluster has been started"]
      else []
    -- Do not allow updating Spec.Mysqld.RootHost
    let rootHostErrs :=
      match nc.spec.mysqld, newNc.spec.mysqld with
      | some oldMysqld, some newMysqld =>
        if oldMysqld.rootHost ≠ newMysqld.rootHost then
          ["spec.mysqld.rootHost cannot be updated once MySQL Cluster has been started"]
        else []
      | _, _ => []
    -- Check if the new NdbCluster has a valid spec
    let (isValid, specErrList) := HasValidSpec isDNS1123Errors parseCnf newNc
    let newSpecErrs := if isValid = false then specErrList else []
    let errList := nodeCountErrs ++ redundancyErrs ++ rootHostErrs ++ newSpecErrs
    (errList.isEmpty, errList)

/-! ## Config summary and config-generation rule (`pkg/ndbconfig`) -/

/-- The persisted `ConfigSummary` fields the embedded functions consult. -/
structure ConfigSummary where
  NdbClusterGeneration : Int
  MySQLClusterConfigVersion : Int
  MySQLServerConfigVersion : Int
  NumOfMySQLServers : Int
deriving DecidableEq, Repr

/-- Two's-complement wrap of Go `int32` arithmetic. -/
def int32Wrap (x : Int) : Int := (x + 2 ^ 31) % 2 ^ 32 - 2 ^ 31

/-- The `GetConfigVersion` template function of `GetConfigString`: 1 when
there is no previous summary, otherwise the previous
`MySQLClusterConfigVersion` (an `int32`) plus one. -/
def GetConfigVersion (oldConfigSummary : Option ConfigSummary) : Int :=
  match oldConfigSummary with
  | none =>
    -- First version of the management config based on newly added NdbCluster spec.
    1
  | some s =>
    -- Bump up the config version for every change.
    int32Wrap (s.MySQLClusterConfigVersion + 1)

/-- The `GetConfigVersion` template function of `GetMySQLConfigString`:
same rule over the `MySQLServerConfigVersion` counter. -/
def GetMySQLServerConfigVersion (oldConfigSummary : Option ConfigSummary) : Int :=
  match oldConfigSummary with
  | none => 1
  | some s => int32Wrap (s.MySQLServerConfigVersion + 1)

/-! ## MySQLD scale-down (`HandleScaleDown` of the MySQLD controller) -/

/-- The fields of the MySQL Server StatefulSet that `HandleScaleDown`
consults.  `updateComplete` is the value of
`statefulsetUpdateComplete(mysqldSfset)` (defined outside the given
sources), taken here as observed state of the workload. -/
structure MySQLDSfset where
  statusReplicas : Int
  updateComplete : Bool
  rootHostAnnotationValue : String
  rootPasswordSecretAnnotationValue : String
deriving DecidableEq, Repr

/-- Outcome of a Kubernetes delete call: success, a NotFound error
(ignored by `HandleScaleDown`'s secret deletion), or another error. -/
inductive DeleteOutcome where
  | ok : DeleteOutcome
  | notFound : DeleteOutcome
  | deleteErr : DeleteOutcome
deriving DecidableEq, Repr

/-- Oracles for the remote calls `HandleScaleDown` may issue. -/
structure ScaleDownEnv where
  /-- `mysqlclient.DeleteRootUserIfExists` succeeds. -/
  deleteRootUserOk : Bool
  /-- `secretClient.IsControlledBy(ctx, secretName, nc)`: the root-password
  secret is owned by this NdbCluster, i.e. operator-minted. -/
  secretControlledByNdb : Bool
  /-- Result of `secretClient.Delete` on the root-password secret. -/
  deleteSecret : DeleteOutcome
  /-- `deleteStatefulSet` succeeds. -/
  deleteSfsetOk : Bool
  /-- Verdict returned by `patchStatefulSet` on the replica patch. -/
  patchResult : syncResult
deriving Repr

/-- Trace of the mutating calls `HandleScaleDown` issued:
whether `DeleteRootUserIfExists`, the secret `Delete`, and
`deleteStatefulSet` were called, and the replica count passed to
`patchStatefulSet` when a patch was issued. -/
structure ScaleDownActions where
  calledDeleteRootUser : Bool
  calledDeleteSecret : Bool
  calledDeleteSfset : Bool
  patchedReplicasTo : Option Int
deriving DecidableEq, Repr

/-- The empty action trace. -/
def noScaleDownActions : ScaleDownActions := ⟨false, false, false, none⟩

/-- Verdict plus action trace of one `HandleScaleDown` invocation. -/
structure ScaleDownOutcome where
  result : syncResult
  actions : ScaleDownActions
deriving DecidableEq, Repr

/-- `HandleScaleDown` of the MySQLD StatefulSet controller.
`mysqldSfset` is `sc.mysqldSfset` (`none` = the StatefulSet does not
exist), `mysqldNodeCount` is `sc.configSummary.NumOfMySQLServers`. -/
def HandleScaleDown (mysqldSfset : Option MySQLDSfset) (mysqldNodeCount : Int)
    (env : ScaleDownEnv) : ScaleDownOutcome :=
  match mysqldSfset with
  | none =>
    -- Nothing to scale down
    ⟨syncResult.continueProcessing, noScaleDownActions⟩
  | some sfset =>
    if sfset.updateComplete = false then
      -- Previous StatefulSet update is not complete yet.
      ⟨syncResult.finishProcessing, noScaleDownActions⟩
    else if sfset.statusReplicas ≤ mysqldNodeCount then
      -- No scale down requested or, it has been processed already
      ⟨syncResult.continueProcessing, noScaleDownActions⟩
    else if mysqldNodeCount = 0 then
      -- The StatefulSet has to be deleted. Delete the root user first.
      if env.deleteRootUserOk = false then
        ⟨syncResult.errorWhileProcessing "Failed to delete root user",
          ⟨true, false, false, none⟩⟩
      else
        -- Delete the secret, but only when the NdbCluster is set as its
        -- owner, which implies that it was created by the operator.
        let secretDeleteCalled := env.secretControlledByNdb
        if env.secretControlledByNdb ∧ env.deleteSecret = DeleteOutcome.deleteErr then
          -- Delete failed with an error (NotFound is ignored as the delete
          -- might be a redundant step caused by an outdated cache read).
          ⟨syncResult.errorWhileProcessing "Failed to delete MySQL Root pass secret",
            ⟨true, secretDeleteCalled, false, none⟩⟩
        else
          -- scale down to 0 servers, i.e., delete the statefulset
          if env.deleteSfsetOk = false then
            ⟨syncResult.errorWhileProcessing "failed to delete statefulset",
              ⟨true, secretDeleteCalled, true, none⟩⟩
          else
            -- reconciliation will continue once the statefulset has been deleted
            ⟨syncResult.finishProcessing, ⟨true, secretDeleteCalled, true, none⟩⟩
    else
      -- create a copy with the updated replica count and patch the
      -- original statefulset with it
      ⟨env.patchResult, ⟨false, false, false, some mysqldNodeCount⟩⟩

/-! ## Status projection (`statusEqual`, `calculateNdbClusterStatus`) -/

/-- One entry of `NdbClusterStatus.Conditions` (the `LastTransitionTime`
wall-clock field is not modelled). -/
structure NdbClusterCondition where
  condType : String
  status : String
  reason : String
  message : String
deriving DecidableEq, Repr

/-- `NdbClusterStatus`. -/
structure NdbClusterStatus where
  processedGeneration : Int
  readyManagementNodes : String
  readyDataNodes : String
  readyMySQLServers : String
  generatedRootPasswordSecretName : String
  conditions : List NdbClusterCondition
deriving DecidableEq, Repr

/-- `statusEqual` of the v1alpha1 status writer.  Go's `&&` short-circuits,
so `Conditions[0]` of either argument is only evaluated after every scalar
field comparison has succeeded; `none` models the out-of-range panic when
that indexing is reached on an empty `Conditions` slice. -/
def statusEqualV1alpha1 (oldStatus newStatus : NdbClusterStatus) : Option Bool :=
  if oldStatus.processedGeneration ≠ newStatus.processedGeneration then some false
  else if oldStatus.readyManagementNodes ≠ newStatus.readyManagementNodes then some false
  else if oldStatus.readyDataNodes ≠ newStatus.readyDataNodes then some false
  else if oldStatus.readyMySQLServers ≠ newStatus.readyMySQLServers then some false
  else if oldStatus.generatedRootPasswordSecretName ≠
      newStatus.generatedRootPasswordSecretName then some false
  else
    match oldStatus.conditions, newStatus.conditions with
    | oldCond :: _, newCond :: _ => some (oldCond.status == newCond.status)
    | _, _ => none

/-- `statusEqual` of the v1 status writer: as the v1alpha1 one, but also
comparing `Reason` and `Message` of `Conditions[0]` (again behind `&&`,
left to right). -/
def statusEqualV1 (oldStatus newStatus : NdbClusterStatus) : Option Bool :=
  if oldStatus.processedGeneration ≠ newStatus.processedGeneration then some false
  else if oldStatus.readyManagementNodes ≠ newStatus.readyManagementNodes then some false
  else if oldStatus.readyDataNodes ≠ newStatus.readyDataNodes then some false
  else if oldStatus.readyMySQLServers ≠ newStatus.readyMySQLServers then some false
  else if oldStatus.generatedRootPasswordSecretName ≠
      newStatus.generatedRootPasswordSecretName then some false
  else
    match oldStatus.conditions, newStatus.conditions with
    | oldCond :: _, newCond :: _ =>
      some (oldCond.status == newCond.status && oldCond.reason == newCond.reason &&
        oldCond.message == newCond.message)
    | _, _ => none

/-- Condition type and reason constants of the API packages (the literal
values live outside the given sources; the identifiers are kept). -/
def NdbClusterUpToDate : String := "UpToDate"

/-- Reason recorded when the sync succeeded. -/
def ReasonSyncSuccess : String := "SyncSuccess"

/-- Reason recorded during the initial system restart (first start). -/
def ReasonISR : String := "ISR"

/-- Reason recorded while a spec update is being applied. -/
def ReasonSpecUpdateInProgress : String := "SpecUpdateInProgress"

/-- Reason recorded when owned pods are failing (v1 only). -/
def ReasonError : String := "Error"

/-- `corev1.ConditionTrue` / `corev1.ConditionFalse`. -/
def ConditionTrue : String := "True"

/-- `corev1.ConditionFalse`. -/
def ConditionFalse : String := "False"

/-- The observed state `calculateNdbClusterStatus` projects from: resource
metadata, per-workload ready counts (`none` = the workload object is nil),
the root-password-secret lookup, the sync flag, and (v1 only) the pod
error messages collected by `retrievePodErrors` (`[]` = nil). -/
structure StatusCalcInput where
  generation : Int
  prevProcessedGeneration : Int
  managementNodeCount : Int
  dataNodeCount : Int
  mysqlServerCount : Int
  mgmdReadyReplicas : Option Int
  dataNodeReadyReplicas : Option Int
  mysqldReadyReplicas : Option Int
  /-- name returned by `resources.GetMySQLRootPasswordSecretName`. -/
  rootPasswordSecretName : String
  /-- whether that secret is a user-supplied (custom) secret. -/
  customSecret : Bool
  syncSuccess : Bool
  podErrorMsgs : List String
deriving DecidableEq, Repr

/-- `"Ready:x/y"`. -/
def readyString (ready total : Int) : String :=
  "Ready:" ++ toString ready ++ "/" ++ toString total

/-- Readiness and secret-name projection shared by both
`calculateNdbClusterStatus` variants (everything up to the
`processedGeneration` and condition computation, which the variants fill
in over this base status). -/
def calculateReadinessFields (inp : StatusCalcInput) : NdbClusterStatus where
  processedGeneration := 0
  readyManagementNodes := readyString ((inp.mgmdReadyReplicas).getD 0) inp.managementNodeCount
  readyDataNodes := readyString ((inp.dataNodeReadyReplicas).getD 0) inp.dataNodeCount
  readyMySQLServers := readyString ((inp.mysqldReadyReplicas).getD 0) inp.mysqlServerCount
  generatedRootPasswordSecretName :=
    match inp.mysqldReadyReplicas with
    | none => ""
    | some _ =>
      if inp.mysqlServerCount > 0 ∧ ¬ inp.customSecret then
        inp.rootPasswordSecretName
      else ""
  conditions := []

/-- `calculateNdbClusterStatus` of the v1 controller: the condition branch
consults `retrievePodErrors` before the generation, and on a sync still in
progress the previous `processedGeneration` is kept. -/
def calculateNdbClusterStatusV1 (inp : StatusCalcInput) : NdbClusterStatus :=
  let status := calculateReadinessFields inp
  if inp.syncSuccess = true then
    { status with
      processedGeneration := inp.generation
      conditions := [⟨NdbClusterUpToDate, ConditionTrue, ReasonSyncSuccess,
        ("NdbCluster Spec generation " ++ toString inp.generation ++ " was successfully applied to the MySQL Cluster")⟩] }
  else if inp.podErrorMsgs ≠ [] then
    -- One or more pods owned by the NdbCluster resource is failing
    { status with
      processedGeneration := inp.prevProcessedGeneration
      conditions := [⟨NdbClusterUpToDate, ConditionFalse, ReasonError,
        String.intercalate "\n" inp.podErrorMsgs⟩] }
  else if inp.generation = 1 then
    -- The MySQL Cluster nodes are being started for the first time
    { status with
      processedGeneration := inp.prevProcessedGeneration
      conditions := [⟨NdbClusterUpToDate, ConditionFalse, ReasonISR,
        "MySQL Cluster is starting up"⟩] }
  else
    -- Config change is being applied to the nodes
    { status with
      processedGeneration := inp.prevProcessedGeneration
      conditions := [⟨NdbClusterUpToDate, ConditionFalse, ReasonSpecUpdateInProgress,
        ("NdbCluster spec generation " ++ toString inp.generation ++ " is being applied to the MySQL Cluster")⟩] }

/-- `calculateNdbClusterStatus` of the v1alpha1 controller: no pod-error
branch, and on a sync still in progress `processedGeneration` is set to
`Generation - 1`. -/
def calculateNdbClusterStatusV1alpha1 (inp : StatusCalcInput) : NdbClusterStatus :=
  let status := calculateReadinessFields inp
  if inp.syncSuccess = true then
    { status with
      processedGeneration := inp.generation
      conditions := [⟨NdbClusterUpToDate, ConditionTrue, ReasonSyncSuccess,
        ("NdbCluster Spec generation " ++ toString inp.generation ++ " was successfully applied to the MySQL Cluster")⟩] }
  else if inp.generation = 1 then
    { status with
      processedGeneration := inp.generation - 1
      conditions := [⟨NdbClusterUpToDate, ConditionFalse, ReasonISR,
        "MySQL Cluster is starting up"⟩] }
  else
    { status with
      processedGeneration := inp.generation - 1
      conditions := [⟨NdbClusterUpToDate, ConditionFalse, ReasonSpecUpdateInProgress,
        ("NdbCluster spec generation " ++ toString inp.generation ++ " is being applied to the MySQL Cluster")⟩] }

/-! ## Config rendering (`GetConfigString`, `pkg/ndbconfig`) -/

/-- `constants.NdbNodeTypeMgmd`. -/
def NdbNodeTypeMgmd : String := "mgmd"

/-- `constants.NdbNodeTypeNdbmtd`. -/
def NdbNodeTypeNdbmtd : String := "ndbmtd"

/-- `constants.NdbNodeTypeMySQLD`. -/
def NdbNodeTypeMySQLD : String := "mysqld"

/-- `constants.NdbNodeTypeAPI`. -/
def NdbNodeTypeAPI : String := "api"

/-- `constants.NdbNodeTypeAPIStartNodeId`: the reserved API-start offset;
the spec's cold-start scenario places the first `[mysqld]` slot at 129. -/
def NdbNodeTypeAPIStartNodeId : Int := 129

/-- `constants.DataDir` (the data volume is mounted there;
`statefulset.go` mounts the config under `DataDir + "/config"` and runs
`ndb_mgmd` with `--configdir=/var/lib/ndb`). -/
def DataDir : String := "/var/lib/ndb"

/-- The `GetDataDir` template function: `constants.DataDir + "/data"`. -/
def GetDataDir : String := DataDir ++ "/data"

/-- Modelled from the spec: `getNumOfSectionsRequiredForMySQLServers` is
not among the given sources; the spec's generated-config section lists
`[mysqld] × mysqlServerCount` named SQL slots. -/
def getNumOfSectionsRequiredForMySQLServers (nc : NdbCluster) : Int :=
  nc.GetMySQLServerNodeCount

/-- Modelled from the spec: `getNumOfFreeAPISections` is not among the
given sources; the spec's generated-config section lists
`[api] × freeAPISlots` anonymous API slots. -/
def getNumOfFreeAPISections (nc : NdbCluster) : Int :=
  nc.spec.freeAPISlots

/-- The consecutive node ids handed out by the `GetNodeIds` template
function for one node type: `count` ids starting at `startId` (the Go
code advances a shared counter per node type). -/
def nodeIdList (startId count : Int) : List Int :=
  (List.range count.toNat).map (fun i => startId + i)

/-- The `GetHostnameSuffix` template function.  `k8sCnameLookup` is the
outcome of `net.LookupCNAME("kubernetes.default.svc")`: `none` on lookup
failure (fall back to the bare namespace), otherwise the FQDN
`kubernetes.default.svc.<k8s-cluster-domain>.` whose tail (minus the
trailing dot) is appended to the namespace. -/
def GetHostnameSuffix (nsName : String) (k8sCnameLookup : Option String) : String :=
  match k8sCnameLookup with
  | none => nsName
  | some k8sCname => nsName ++ ((k8sCname.drop "kubernetes.default".length).dropRight 1)

/-- The `key=value` lines a template `range` over a tuning map renders:
one `\n`-prefixed line per entry, in the (sorted) order `text/template`
iterates the map. -/
def configEntriesLines (entries : List (String × String)) : String :=
  String.join (entries.map (fun kv => "\n" ++ kv.1 ++ "=" ++ kv.2))

/-- One `[ndb_mgmd]` or `[ndbd]` section of the rendered config. -/
def ndbProcessSection (sectionHeader nodeType : String) (nc : NdbCluster)
    (hostnameSuffix : String) (idx : Nat) (nodeId : Int) : String :=
  "[" ++ sectionHeader ++ "]\nNodeId=" ++ toString nodeId ++
    "\nHostname=" ++ nc.name ++ "-" ++ nodeType ++ "-" ++ toString idx ++ "." ++
    nc.GetServiceName nodeType ++ "." ++ hostnameSuffix ++
    "\nDataDir=" ++ GetDataDir ++ "\n\n"

/-- One `[mysqld]` section of the rendered config (no `DataDir`). -/
def mysqldSection (nc : NdbCluster) (hostnameSuffix : String)
    (idx : Nat) (nodeId : Int) : String :=
  "[mysqld]\nNodeId=" ++ toString nodeId ++
    "\nHostname=" ++ nc.name ++ "-" ++ NdbNodeTypeMySQLD ++ "-" ++ toString idx ++ "." ++
    nc.GetServiceName NdbNodeTypeMySQLD ++ "." ++ hostnameSuffix ++ "\n\n"

/-- Expansion of the `mgmtConfigTmpl` template on the given resource, with
the config generation number and the hostname suffix (the template binds
`$hostnameSuffix` once, before the node sections) passed in. -/
def renderConfigIni (nc : NdbCluster) (configGenerationNumber : Int)
    (hostnameSuffix : String) : String :=
  let mgmtNodeCount := nc.GetManagementNodeCount
  let mgmdIds := nodeIdList 1 mgmtNodeCount
  let ndbdIds := nodeIdList (1 + mgmtNodeCount) nc.spec.nodeCount
  let numOfMySQLDSections := getNumOfSectionsRequiredForMySQLServers nc
  let mysqldIds := nodeIdList NdbNodeTypeAPIStartNodeId numOfMySQLDSections
  let apiIds := nodeIdList (NdbNodeTypeAPIStartNodeId + numOfMySQLDSections)
    (getNumOfFreeAPISections nc)
  "# Auto generated config.ini - DO NOT EDIT\n\n[system]\nConfigGenerationNumber=" ++
    toString configGenerationNumber ++
    "\nName=" ++ nc.name ++ "\n\n" ++
    (if nc.spec.managementNodeConfig ≠ [] then "[ndb_mgmd default]" else "") ++
    configEntriesLines nc.spec.managementNodeConfig ++
    "\n\n[ndbd default]\nNoOfReplicas=" ++ toString nc.spec.redundancyLevel ++
    "\n# Use a fixed ServerPort for all data nodes\nServerPort=1186" ++
    configEntriesLines nc.spec.dataNodeConfig ++
    "\n\n[tcp default]\nAllowUnresolvedHostnames=1\n\n" ++
    String.join (mgmdIds.enum.map
      (fun p => ndbProcessSection "ndb_mgmd" NdbNodeTypeMgmd nc hostnameSuffix p.1 p.2)) ++
    String.join (ndbdIds.enum.map
      (fun p => ndbProcessSection "ndbd" NdbNodeTypeNdbmtd nc hostnameSuffix p.1 p.2)) ++
    "# MySQLD sections to be used exclusively by MySQL Servers\n" ++
    String.join (mysqldIds.enum.map
      (fun p => mysqldSection nc hostnameSuffix p.1 p.2)) ++
    "# API sections to be used by generic NDBAPI applications\n" ++
    String.join (apiIds.map
      (fun nodeId => "[api]\nNodeId=" ++ toString nodeId ++ "\n\n"))

/-- `GetConfigString` (`pkg/ndbconfig`): renders the MySQL Cluster config
from the resource spec, the previous `ConfigSummary`, and the outcome of
the one DNS lookup the template's `GetHostnameSuffix` function performs. -/
def GetConfigString (nc : NdbCluster) (oldConfigSummary : Option ConfigSummary)
    (k8sCnameLookup : Option String) : String :=
  renderConfigIni nc (GetConfigVersion oldConfigSummary)
    (GetHostnameSuffix nc.nsName k8sCnameLookup)

/-! # Claims -/

/-! ## C3 — config-generation rule -/

/-- C3 counterexample: the config generation counter is a Go `int32`; with
a previous summary at the maximum `int32` value 2147483647, the bump wraps
to -2147483648, so the emitted generation neither equals the previous one
plus 1 nor exceeds it: the claim's universal "equals the previous
summary's config generation plus 1, hence strictly increasing" fails. -/
theorem c3_counterexample :
    GetConfigVersion (some ⟨1, 2147483647, 1, 0⟩) ≠ 2147483647 + 1 ∧
    ¬ (2147483647 : Int) < GetConfigVersion (some ⟨1, 2147483647, 1, 0⟩) := by
  constructor <;> decide

/-- C3 (amended): the generation emitted by `GetConfigVersion` is 1 when
there is no previous summary; when there is one whose (int32) generation
is below the int32 maximum, it is the previous generation plus 1 and is
strictly larger than the previous generation. -/
theorem c3_configGeneration_rule (s : ConfigSummary)
    (hlo : -2 ^ 31 ≤ s.MySQLClusterConfigVersion)
    (hhi : s.MySQLClusterConfigVersion < 2 ^ 31 - 1) :
    GetConfigVersion none = 1 ∧
    GetConfigVersion (some s) = s.MySQLClusterConfigVersion + 1 ∧
    s.MySQLClusterConfigVersion < GetConfigVersion (some s) := by
  refine ⟨rfl, ?_, ?_⟩ <;> simp only [GetConfigVersion, int32Wrap] <;> omega

/-- C3 witness: the amended rule at the concrete summary with generation 5. -/
theorem c3_configGeneration_rule_witness :
    GetConfigVersion none = 1 ∧
    GetConfigVersion (some ⟨1, 5, 1, 0⟩) = 5 + 1 ∧
    (5 : Int) < GetConfigVersion (some ⟨1, 5, 1, 0⟩) :=
  c3_configGeneration_rule ⟨1, 5, 1, 0⟩ (by decide) (by decide)

/-! ## C6 — data-node-count validation -/

/-- C6 counterexample: a spec with zero data nodes passes `HasValidSpec`
(0 is a multiple of every redundancy level and no other check rejects it),
so the claim's "a spec with zero data nodes is likewise invalid" fails. -/
theorem c6_counterexample :
    HasValidSpec (fun _ => []) (fun _ => CnfParseResult.parsed 1 1)
      ⟨"example-ndb", "default", 1, ⟨2, 0, none, 0, [], []⟩⟩ = (true, []) := by
  decide

/-- C6 (amended): `HasValidSpec` produces a validation error whenever the
data-node count is not a multiple of the redundancy level (`math.Mod`
non-zero, which also covers redundancy level 0); a spec with zero data
nodes is not rejected by this check, since 0 is a multiple of every
redundancy level. -/
theorem c6_nodeCount_multiple_check (isDNS1123Errors : String → List String)
    (parseCnf : String → CnfParseResult) (nc : NdbCluster)
    (h : floatModIsNonZero nc.spec.nodeCount nc.spec.redundancyLevel = true) :
    (HasValidSpec isDNS1123Errors parseCnf nc).1 = false ∧
    nodeCountMultipleErrMsg ∈ (HasValidSpec isDNS1123Errors parseCnf nc).2 := by
  unfold HasValidSpec
  simp only [h, if_true]
  constructor
  · simp [List.isEmpty]
  · exact List.mem_append_left _ (List.mem_append_left _
      (List.mem_append_left _ (List.mem_singleton_self _)))

/-- C6 witness: a spec with 3 data nodes and redundancy 2 is rejected with
the multiple-check error. -/
theorem c6_nodeCount_multiple_check_witness :
    floatModIsNonZero (3 : Int) 2 = true ∧
    ((HasValidSpec (fun _ => []) (fun _ => CnfParseResult.parsed 1 1)
        ⟨"example-ndb", "default", 1, ⟨2, 3, none, 0, [], []⟩⟩).1 = false ∧
      nodeCountMultipleErrMsg ∈
        (HasValidSpec (fun _ => []) (fun _ => CnfParseResult.parsed 1 1)
          ⟨"example-ndb", "default", 1, ⟨2, 3, none, 0, [], []⟩⟩).2) :=
  ⟨by decide,
    c6_nodeCount_multiple_check (fun _ => []) (fun _ => CnfParseResult.parsed 1 1)
      ⟨"example-ndb", "default", 1, ⟨2, 3, none, 0, [], []⟩⟩ (by decide)⟩

/-! ## C7 — redundancy 1 rejects every spec update -/

/-- C7: when the existing NdbCluster has redundancy level 1,
`IsValidSpecUpdate` rejects every proposed new spec with a non-empty
error list, regardless of the new spec's content. -/
theorem c7_redundancy_one_rejects_spec_update
    (isDNS1123Errors : String → List String) (parseCnf : String → CnfParseResult)
    (nc newNc : NdbCluster) (h : nc.spec.redundancyLevel = 1) :
    (IsValidSpecUpdate isDNS1123Errors parseCnf nc newNc).1 = false ∧
    (IsValidSpecUpdate isDNS1123Errors parseCnf nc newNc).2 ≠ [] := by
  unfold IsValidSpecUpdate
  rw [if_pos h]
  exact ⟨rfl, by simp⟩

/-- C7 witness: a concrete redundancy-1 cluster rejects the identity update. -/
theorem c7_redundancy_one_rejects_spec_update_witness :
    (IsValidSpecUpdate (fun _ => []) (fun _ => CnfParseResult.parsed 1 1)
        ⟨"example-ndb", "default", 1, ⟨1, 2, none, 0, [], []⟩⟩
        ⟨"example-ndb", "default", 2, ⟨1, 2, none, 0, [], []⟩⟩).1 = false ∧
    (IsValidSpecUpdate (fun _ => []) (fun _ => CnfParseResult.parsed 1 1)
        ⟨"example-ndb", "default", 1, ⟨1, 2, none, 0, [], []⟩⟩
        ⟨"example-ndb", "default", 2, ⟨1, 2, none, 0, [], []⟩⟩).2 ≠ [] :=
  c7_redundancy_one_rejects_spec_update (fun _ => []) (fun _ => CnfParseResult.parsed 1 1)
    ⟨"example-ndb", "default", 1, ⟨1, 2, none, 0, [], []⟩⟩
    ⟨"example-ndb", "default", 2, ⟨1, 2, none, 0, [], []⟩⟩ rfl

/-! ## C4 — SQL scale-down -/

/-- C4: when `HandleScaleDown` observes an existing, settled SQL workload
with more replicas than the summary's target: for target 0 (and all the
remote deletes succeeding, with a NotFound on the secret tolerated) it
deletes the root user, deletes the root-password secret exactly when the
secret is controlled by the NdbCluster (operator-minted; a user-supplied
secret is skipped), deletes the workload, and returns the finish verdict;
for a non-zero target it only patches the replica count to the target. -/
theorem c4_handleScaleDown_behaviour (sfset : MySQLDSfset) (target : Int)
    (env : ScaleDownEnv) (hcomplete : sfset.updateComplete = true)
    (hmore : target < sfset.statusReplicas) :
    (target = 0 → env.deleteRootUserOk = true →
      env.deleteSecret ≠ DeleteOutcome.deleteErr → env.deleteSfsetOk = true →
      HandleScaleDown (some sfset) target env =
        ⟨syncResult.finishProcessing, ⟨true, env.secretControlledByNdb, true, none⟩⟩) ∧
    (target ≠ 0 →
      HandleScaleDown (some sfset) target env =
        ⟨env.patchResult, ⟨false, false, false, some target⟩⟩) := by
  constructor
  · intro hzero hroot hsecret hsfset
    subst hzero
    have hnosecreterr :
        ¬ (env.secretControlledByNdb = true ∧ env.deleteSecret = DeleteOutcome.deleteErr) :=
      fun hc => hsecret hc.2
    simp [HandleScaleDown, hcomplete, hroot, not_le.mpr hmore, hnosecreterr, hsfset]
  · intro hnonzero
    simp [HandleScaleDown, hcomplete, not_le.mpr hmore, hnonzero]

/-- C4 witness: a settled workload with 2 replicas scaling to target 0,
all remote calls succeeding, an operator-owned secret. -/
theorem c4_handleScaleDown_behaviour_witness :
    HandleScaleDown (some ⟨2, true, "%", "ndb-root-secret"⟩) 0
        ⟨true, true, DeleteOutcome.ok, true, syncResult.continueProcessing⟩ =
      ⟨syncResult.finishProcessing, ⟨true, true, true, none⟩⟩ :=
  (c4_handleScaleDown_behaviour ⟨2, true, "%", "ndb-root-secret"⟩ 0
      ⟨true, true, DeleteOutcome.ok, true, syncResult.continueProcessing⟩
      rfl (by decide)).1 rfl rfl (by decide) rfl

/-! ## C10 — management StopNodes error is not propagated -/

/-- The verdict and stop trace of the management rollout loop do not
depend on the StopNodes oracle (its error is only logged). -/
theorem mgmtConfigVersionLoop_stopOk_irrelevant (wantedGeneration : Nat)
    (connectOk : Nat → Bool) (getCV : Nat → Option Nat)
    (stopOk₁ stopOk₂ : Nat → Bool) :
    ∀ remaining nodeID,
      (mgmtConfigVersionLoop wantedGeneration connectOk getCV stopOk₁ nodeID remaining).result =
        (mgmtConfigVersionLoop wantedGeneration connectOk getCV stopOk₂ nodeID remaining).result ∧
      (mgmtConfigVersionLoop wantedGeneration connectOk getCV stopOk₁ nodeID remaining).stops =
        (mgmtConfigVersionLoop wantedGeneration connectOk getCV stopOk₂ nodeID remaining).stops := by
  intro remaining
  induction remaining with
  | zero => intro nodeID; exact ⟨rfl, rfl⟩
  | succ r ih =>
    intro nodeID
    by_cases hc : connectOk nodeID = false
    · simp [mgmtConfigVersionLoop, hc]
    · rcases hcv : getCV nodeID with _ | version
      · simp [mgmtConfigVersionLoop, hc, hcv]
      · by_cases hv : version = wantedGeneration
        · simpa [mgmtConfigVersionLoop, hc, hcv, hv] using ih (nodeID + 1)
        · simp [mgmtConfigVersionLoop, hc, hcv, hv]

/-- C10: when a management node has an outdated config generation, the
tick's verdict is requeue-in-5-seconds even if the StopNodes request
fails.  Formally, the verdict and the stop trace of
`ensureManagementServerConfigVersion` are identical for any two StopNodes
oracles (only the logged failure trace may differ), and whenever a stop
was requested the verdict is requeue-in-5-seconds — in particular also
when that stop request failed. -/
theorem c10_mgmt_stop_error_not_propagated (wantedGeneration managementNodeCount : Nat)
    (connectOk : Nat → Bool) (getCV : Nat → Option Nat) (stopOk₁ stopOk₂ : Nat → Bool) :
    ((ensureManagementServerConfigVersion wantedGeneration managementNodeCount
        connectOk getCV stopOk₁).result =
      (ensureManagementServerConfigVersion wantedGeneration managementNodeCount
        connectOk getCV stopOk₂).result) ∧
    ((ensureManagementServerConfigVersion wantedGeneration managementNodeCount
        connectOk getCV stopOk₁).stops =
      (ensureManagementServerConfigVersion wantedGeneration managementNodeCount
        connectOk getCV stopOk₂).stops) ∧
    (∀ n ∈ (ensureManagementServerConfigVersion wantedGeneration managementNodeCount
        connectOk getCV stopOk₁).stopFailures,
      (ensureManagementServerConfigVersion wantedGeneration managementNodeCount
        connectOk getCV stopOk₁).result = syncResult.requeueInSeconds 5) := by
  refine ⟨(mgmtConfigVersionLoop_stopOk_irrelevant _ _ _ _ _ _ _).1,
    (mgmtConfigVersionLoop_stopOk_irrelevant _ _ _ _ _ _ _).2, ?_⟩
  unfold ensureManagementServerConfigVersion
  generalize 1 = start
  induction managementNodeCount generalizing start with
  | zero => intro n hn; simp [mgmtConfigVersionLoop] at hn
  | succ r ih =>
    intro n hn
    by_cases hc : connectOk start = false
    · simp [mgmtConfigVersionLoop, hc] at hn
    · rcases hcv : getCV start with _ | version
      · simp [mgmtConfigVersionLoop, hc, hcv] at hn
      · by_cases hv : version = wantedGeneration
        · simp only [mgmtConfigVersionLoop] at hn ⊢
          simp [hc, hcv, hv] at hn ⊢
          exact ih (start + 1) n hn
        · simp [mgmtConfigVersionLoop, hc, hcv, hv]

/-! ## C2 — management rollout visits nodes in order, stops one at a time -/

/-- Behaviour of the management rollout loop: at most one stop is
requested, and a stopped node has an outdated generation, every node
visited before it (in ascending id order) had the wanted generation, and
the verdict is requeue-in-5-seconds. -/
theorem mgmtConfigVersionLoop_stops_spec (wantedGeneration : Nat)
    (connectOk : Nat → Bool) (getCV : Nat → Option Nat) (stopOk : Nat → Bool) :
    ∀ remaining start,
      (mgmtConfigVersionLoop wantedGeneration connectOk getCV stopOk start remaining).stops.length ≤ 1 ∧
      ∀ n ∈ (mgmtConfigVersionLoop wantedGeneration connectOk getCV stopOk start remaining).stops,
        start ≤ n ∧ n < start + remaining ∧
        (∃ v, getCV n = some v ∧ v ≠ wantedGeneration) ∧
        (∀ m, start ≤ m → m < n → connectOk m = true ∧ getCV m = some wantedGeneration) ∧
        (mgmtConfigVersionLoop wantedGeneration connectOk getCV stopOk start remaining).result =
          syncResult.requeueInSeconds 5 := by
  intro remaining
  induction remaining with
  | zero =>
    intro start
    exact ⟨by simp [mgmtConfigVersionLoop], by simp [mgmtConfigVersionLoop]⟩
  | succ r ih =>
    intro start
    by_cases hc : connectOk start = false
    · exact ⟨by simp [mgmtConfigVersionLoop, hc], by simp [mgmtConfigVersionLoop, hc]⟩
    · have hctrue : connectOk start = true := by
        cases h : connectOk start
        · exact absurd h hc
        · rfl
      rcases hcv : getCV start with _ | version
      · exact ⟨by simp [mgmtConfigVersionLoop, hc, hcv],
          by simp [mgmtConfigVersionLoop, hc, hcv]⟩
      · by_cases hv : version = wantedGeneration
        · have hstep :
              mgmtConfigVersionLoop wantedGeneration connectOk getCV stopOk start (r + 1) =
                mgmtConfigVersionLoop wantedGeneration connectOk getCV stopOk (start + 1) r := by
            simp [mgmtConfigVersionLoop, hc, hcv, hv]
          obtain ⟨ihlen, ihmem⟩ := ih (start + 1)
          rw [hstep]
          refine ⟨ihlen, fun n hn => ?_⟩
          obtain ⟨h1, h2, h3, h4, h5⟩ := ihmem n hn
          refine ⟨by omega, by omega, h3, fun m hm1 hm2 => ?_, h5⟩
          rcases Nat.eq_or_lt_of_le hm1 with heq | hlt
          · refine heq ▸ ⟨hctrue, ?_⟩
            rw [hcv, hv]
          · exact h4 m hlt hm2
        · have hstep :
              mgmtConfigVersionLoop wantedGeneration connectOk getCV stopOk start (r + 1) =
                ⟨syncResult.requeueInSeconds 5, [start],
                  if stopOk start then [] else [start]⟩ := by
            simp [mgmtConfigVersionLoop, hc, hcv, hv]
          rw [hstep]
          refine ⟨by simp, fun n hn => ?_⟩
          have hns : n = start := by simpa using hn
          subst hns
          exact ⟨le_refl n, by omega, ⟨version, hcv, hv⟩,
            fun m hm1 hm2 => absurd (lt_of_le_of_lt hm1 hm2) (lt_irrefl n), rfl⟩

/-- C2: in every tick of `ensureManagementServerConfigVersion`, at most
one management node is stopped; a stopped node `n` lies in
`1..managementNodeCount`, its running config generation differs from the
target, every management node visited before it (ids in ascending order)
had the target generation and was skipped, and the tick's verdict is
requeue-in-5-seconds. -/
theorem c2_mgmt_rollout_one_at_a_time (wantedGeneration managementNodeCount : Nat)
    (connectOk : Nat → Bool) (getCV : Nat → Option Nat) (stopOk : Nat → Bool)
    (out : MgmtRolloutOutcome)
    (hout : out = ensureManagementServerConfigVersion wantedGeneration
      managementNodeCount connectOk getCV stopOk) :
    out.stops.length ≤ 1 ∧
    ∀ n ∈ out.stops,
      1 ≤ n ∧ n ≤ managementNodeCount ∧
      (∃ v, getCV n = some v ∧ v ≠ wantedGeneration) ∧
      (∀ m, 1 ≤ m → m < n → connectOk m = true ∧ getCV m = some wantedGeneration) ∧
      out.result = syncResult.requeueInSeconds 5 := by
  subst hout
  obtain ⟨hlen, hmem⟩ :=
    mgmtConfigVersionLoop_stops_spec wantedGeneration connectOk getCV stopOk
      managementNodeCount 1
  refine ⟨hlen, fun n hn => ?_⟩
  obtain ⟨h1, h2, h3, h4, h5⟩ := hmem n hn
  exact ⟨h1, by omega, h3, h4, h5⟩

/-- C2 witness: two management servers wanting generation 2 while node 1
still runs generation 1: node 1 alone is stopped and the tick requeues. -/
theorem c2_mgmt_rollout_one_at_a_time_witness :
    1 ∈ (ensureManagementServerConfigVersion 2 2 (fun _ => true) (fun _ => some 1)
        (fun _ => true)).stops ∧
    (1 ≤ 1 ∧ 1 ≤ 2 ∧
      (∃ v, (fun _ => some 1 : Nat → Option Nat) 1 = some v ∧ v ≠ 2) ∧
      (∀ m, 1 ≤ m → m < 1 →
        (fun _ => true : Nat → Bool) m = true ∧
        (fun _ => some 1 : Nat → Option Nat) m = some 2) ∧
      (ensureManagementServerConfigVersion 2 2 (fun _ => true) (fun _ => some 1)
        (fun _ => true)).result = syncResult.requeueInSeconds 5) :=
  ⟨by decide,
    (c2_mgmt_rollout_one_at_a_time 2 2 (fun _ => true) (fun _ => some 1) (fun _ => true)
      _ rfl).2 1 (by decide)⟩

/-! ## C1 — data-node rollout: one node per node-group per tick -/

/-- When the candidate scan succeeds, the collected nodes are exactly the
candidates whose running generation differs from the wanted one, in
candidate order. -/
theorem collectNodesWithOldConfig_eq_filter (wantedGeneration : Nat)
    (getCV : Nat → Option Nat) :
    ∀ l olds, collectNodesWithOldConfig wantedGeneration getCV l = some olds →
      olds = l.filter (fun n => decide (getCV n ≠ some wantedGeneration)) := by
  intro l
  induction l with
  | nil =>
    intro olds h
    simp only [collectNodesWithOldConfig, Option.some.injEq] at h
    simp [← h]
  | cons n rest ih =>
    intro olds h
    rcases hcv : getCV n with _ | v
    · simp [collectNodesWithOldConfig, hcv] at h
    · rcases hrest : collectNodesWithOldConfig wantedGeneration getCV rest with _ | olds'
      · simp [collectNodesWithOldConfig, hcv, hrest] at h
      · simp only [collectNodesWithOldConfig, hcv, hrest, Option.some.injEq] at h
        by_cases hv : wantedGeneration = v
        · rw [if_neg (by simp [hv])] at h
          rw [← h, List.filter_cons_of_neg (by simp [hcv, hv]), ih olds' hrest]
        · rw [if_pos hv] at h
          rw [← h, List.filter_cons_of_pos (by simp [hcv]; omega), ih olds' hrest]

/-- Behaviour of the data-node pass loop: at most one `StopNodes` call is
issued; its argument is the non-empty outdated subset of the candidate set
of some pass `j` in range, and when the stop request is accepted the
verdict is requeue-in-5-seconds. -/
theorem dataNodeConfigVersionLoop_stopCalls_spec (wantedGeneration : Nat)
    (groups : List (List Nat)) (getCV : Nat → Option Nat)
    (stopOk : List Nat → Bool) :
    ∀ remainingPasses i,
      (dataNodeConfigVersionLoop wantedGeneration groups getCV stopOk i
        remainingPasses).stopCalls.length ≤ 1 ∧
      ∀ s ∈ (dataNodeConfigVersionLoop wantedGeneration groups getCV stopOk i
          remainingPasses).stopCalls,
        ∃ j, i ≤ j ∧ j < i + remainingPasses ∧
          s = (candidateNodeIds groups j).filter
            (fun n => decide (getCV n ≠ some wantedGeneration)) ∧
          s ≠ [] ∧
          (stopOk s = true →
            (dataNodeConfigVersionLoop wantedGeneration groups getCV stopOk i
              remainingPasses).result = syncResult.requeueInSeconds 5) := by
  intro remainingPasses
  induction remainingPasses with
  | zero =>
    intro i
    exact ⟨by simp [dataNodeConfigVersionLoop], by simp [dataNodeConfigVersionLoop]⟩
  | succ r ih =>
    intro i
    rcases hcol : collectNodesWithOldConfig wantedGeneration getCV
        (candidateNodeIds groups i) with _ | olds
    · exact ⟨by simp [dataNodeConfigVersionLoop, hcol],
        by simp [dataNodeConfigVersionLoop, hcol]⟩
    · rcases olds with _ | ⟨n, olds'⟩
      · have hstep :
            dataNodeConfigVersionLoop wantedGeneration groups getCV stopOk i (r + 1) =
              dataNodeConfigVersionLoop wantedGeneration groups getCV stopOk (i + 1) r := by
          simp [dataNodeConfigVersionLoop, hcol]
        rw [hstep]
        obtain ⟨ihlen, ihmem⟩ := ih (i + 1)
        refine ⟨ihlen, fun s hs => ?_⟩
        obtain ⟨j, hj1, hj2, hj3, hj4, hj5⟩ := ihmem s hs
        exact ⟨j, by omega, by omega, hj3, hj4, hj5⟩
      · by_cases hstop : stopOk (n :: olds') = true
        · have hstep :
              dataNodeConfigVersionLoop wantedGeneration groups getCV stopOk i (r + 1) =
                ⟨syncResult.requeueInSeconds 5, [n :: olds']⟩ := by
            simp [dataNodeConfigVersionLoop, hcol, hstop]
          rw [hstep]
          refine ⟨by simp, fun s hs => ?_⟩
          have hseq : s = n :: olds' := by simpa using hs
          subst hseq
          exact ⟨i, le_refl i, by omega,
            collectNodesWithOldConfig_eq_filter wantedGeneration getCV _ _ hcol,
            by simp, fun _ => rfl⟩
        · have hstep :
              dataNodeConfigVersionLoop wantedGeneration groups getCV stopOk i (r + 1) =
                ⟨syncResult.errorWhileProcessing "StopNodes failed", [n :: olds']⟩ := by
            simp [dataNodeConfigVersionLoop, hcol, hstop]
          rw [hstep]
          refine ⟨by simp, fun s hs => ?_⟩
          have hseq : s = n :: olds' := by simpa using hs
          subst hseq
          exact ⟨i, le_refl i, by omega,
            collectNodesWithOldConfig_eq_filter wantedGeneration getCV _ _ hcol,
            by simp, fun hcontra => absurd hcontra hstop⟩

/-- C1: in every tick of `ensureDataNodeConfigVersion` over node groups of
size `redundancyLevel` with globally distinct node ids, at most one
`StopNodes` call is issued; its argument is the non-empty subset of the
pass-`i` candidate set (the i-th node of every node group) whose running
generation differs from the target, the verdict after an accepted stop is
requeue-in-5-seconds, and for every node group the only stopped member it
can have is its i-th node — at most one data node per node-group is
intentionally stopped in one tick. -/
theorem c1_dataNode_rollout_one_per_nodegroup (wantedGeneration redundancyLevel : Nat)
    (groups : List (List Nat)) (getCV : Nat → Option Nat) (stopOk : List Nat → Bool)
    (out : DataRolloutOutcome)
    (hout : out = ensureDataNodeConfigVersion wantedGeneration redundancyLevel true
      (some groups) getCV stopOk)
    (hglen : ∀ g ∈ groups, g.length = redundancyLevel)
    (hnodup : groups.flatten.Nodup) :
    out.stopCalls.length ≤ 1 ∧
    ∀ s ∈ out.stopCalls, ∃ i, i < redundancyLevel ∧
      s = (candidateNodeIds groups i).filter
        (fun n => decide (getCV n ≠ some wantedGeneration)) ∧
      s ≠ [] ∧
      (stopOk s = true → out.result = syncResult.requeueInSeconds 5) ∧
      ∀ g ∈ groups, ∀ x ∈ s, x ∈ g → x = g.getD i 0 := by
  subst hout
  have hred : ensureDataNodeConfigVersion wantedGeneration redundancyLevel true
      (some groups) getCV stopOk =
      dataNodeConfigVersionLoop wantedGeneration groups getCV stopOk 0 redundancyLevel := by
    simp [ensureDataNodeConfigVersion]
  rw [hred]
  obtain ⟨hl, hmem⟩ :=
    dataNodeConfigVersionLoop_stopCalls_spec wantedGeneration groups getCV stopOk
      redundancyLevel 0
  refine ⟨hl, fun s hs => ?_⟩
  obtain ⟨j, _, hj2, hj3, hj4, hj5⟩ := hmem s hs
  refine ⟨j, by omega, hj3, hj4, hj5, ?_⟩
  intro g hg x hx hxg
  have hxc : x ∈ candidateNodeIds groups j := by
    rw [hj3] at hx
    exact List.mem_of_mem_filter hx
  obtain ⟨g', hg', hxg'⟩ :=
    List.mem_map.mp (show x ∈ groups.map (fun t => t.getD j 0) from hxc)
  have hjlt : j < g'.length := by rw [hglen g' hg']; omega
  have hgd : g'.getD j 0 ∈ g' := by
    rw [List.getD_eq_getElem _ _ hjlt]
    exact List.getElem_mem hjlt
  have hxin : x ∈ g' := hxg' ▸ hgd
  have hdisj := (List.nodup_flatten.mp hnodup).2
  by_cases hgg : g = g'
  · subst hgg; exact hxg'.symm
  · have hdis : List.Disjoint g g' :=
      List.Pairwise.forall (fun _ _ h => List.Disjoint.symm h) hdisj hg hg' hgg
    exact absurd (hdis hxg hxin) id

/-- C1 witness: two node groups `[3,4]` and `[5,6]` at redundancy 2,
node 3 still on generation 1 while generation 2 is wanted: the single
stop call is `[3]` and the tick requeues. -/
theorem c1_dataNode_rollout_one_per_nodegroup_witness :
    [3] ∈ (ensureDataNodeConfigVersion 2 2 true (some [[3, 4], [5, 6]])
      (fun n => some (if n = 3 then 1 else 2)) (fun _ => true)).stopCalls ∧
    (∃ i, i < 2 ∧
      [3] = (candidateNodeIds [[3, 4], [5, 6]] i).filter
        (fun n => decide ((fun n => some (if n = 3 then 1 else 2) : Nat → Option Nat) n ≠ some 2)) ∧
      ([3] : List Nat) ≠ [] ∧
      ((fun _ => true : List Nat → Bool) [3] = true →
        (ensureDataNodeConfigVersion 2 2 true (some [[3, 4], [5, 6]])
          (fun n => some (if n = 3 then 1 else 2)) (fun _ => true)).result =
          syncResult.requeueInSeconds 5) ∧
      ∀ g ∈ [[3, 4], [5, 6]], ∀ x ∈ [3], x ∈ g → x = g.getD i 0) :=
  ⟨by decide,
    (c1_dataNode_rollout_one_per_nodegroup 2 2 [[3, 4], [5, 6]]
      (fun n => some (if n = 3 then 1 else 2)) (fun _ => true) _ rfl
      (by decide) (by decide)).2 [3] (by decide)⟩

/-! ## C9 — statusEqual and empty Conditions -/

/-- C9 counterexample: two statuses with empty `Conditions` but different
`ProcessedGeneration` — both `statusEqual` variants return `false`
(Go's `&&` short-circuits before `Conditions[0]` is indexed), refuting the
claim that the comparison panics for any status with an empty `Conditions`
slice. -/
theorem c9_counterexample :
    statusEqualV1alpha1 ⟨1, "", "", "", "", []⟩ ⟨2, "", "", "", "", []⟩ = some false ∧
    statusEqualV1 ⟨1, "", "", "", "", []⟩ ⟨2, "", "", "", "", []⟩ = some false := by
  constructor <;> decide

/-- C9 (amended): both `statusEqual` variants index `Conditions[0]` only
after all five scalar field comparisons have succeeded; they hit the
out-of-bounds access (panic) exactly when the scalar fields are all equal
and either `Conditions` slice is empty — when an earlier field differs
they return `false` without touching `Conditions`. -/
theorem c9_statusEqual_oob_exactly_after_scalar_equality
    (oldStatus newStatus : NdbClusterStatus) :
    (statusEqualV1alpha1 oldStatus newStatus = none ↔
      (oldStatus.processedGeneration = newStatus.processedGeneration ∧
        oldStatus.readyManagementNodes = newStatus.readyManagementNodes ∧
        oldStatus.readyDataNodes = newStatus.readyDataNodes ∧
        oldStatus.readyMySQLServers = newStatus.readyMySQLServers ∧
        oldStatus.generatedRootPasswordSecretName =
          newStatus.generatedRootPasswordSecretName) ∧
      (oldStatus.conditions = [] ∨ newStatus.conditions = [])) ∧
    (statusEqualV1 oldStatus newStatus = none ↔
      (oldStatus.processedGeneration = newStatus.processedGeneration ∧
        oldStatus.readyManagementNodes = newStatus.readyManagementNodes ∧
        oldStatus.readyDataNodes = newStatus.readyDataNodes ∧
        oldStatus.readyMySQLServers = newStatus.readyMySQLServers ∧
        oldStatus.generatedRootPasswordSecretName =
          newStatus.generatedRootPasswordSecretName) ∧
      (oldStatus.conditions = [] ∨ newStatus.conditions = [])) := by
  constructor
  · unfold statusEqualV1alpha1
    rcases hco : oldStatus.conditions with _ | ⟨c, cs⟩ <;>
      rcases hcn : newStatus.conditions with _ | ⟨d, ds⟩ <;>
      split_ifs with h1 h2 h3 h4 h5 <;>
      simp_all
  · unfold statusEqualV1
    rcases hco : oldStatus.conditions with _ | ⟨c, cs⟩ <;>
      rcases hcn : newStatus.conditions with _ | ⟨d, ds⟩ <;>
      split_ifs with h1 h2 h3 h4 h5 <;>
      simp_all

/-! ## C8 — status projection (UpToDate condition machine) -/

/-- C8 counterexample: in the v1 projector, a failing pod takes precedence
over the initial-system-restart branch: with `syncSuccess = false` and
resource generation 1 but a pod error present, the condition reason is
`Error`, not `ISR` as the claim states for every generation-1 sync in
progress. -/
theorem c8_counterexample :
    (calculateNdbClusterStatusV1
        ⟨1, 0, 2, 2, 0, some 2, some 2, none, "", false, false,
          ["Pod default/example-pod is in CrashLoopBackOff"]⟩).conditions =
      [⟨NdbClusterUpToDate, ConditionFalse, ReasonError,
        "Pod default/example-pod is in CrashLoopBackOff"⟩] ∧
    ReasonError ≠ ReasonISR := by
  constructor <;> decide

/-- C8 (amended): the status projectors set the `UpToDate` condition to
(True, SyncSuccess) and `processedGeneration` to the current generation
when the sync succeeded; when it has not succeeded, the v1alpha1 variant
writes generation−1 and the v1 variant keeps the previous processed
generation, and the condition is (False, Error) listing the pod errors
when any owned pod is failing (v1 only), otherwise (False, ISR) with
message "MySQL Cluster is starting up" at generation 1 and
(False, SpecUpdateInProgress) at a later generation. -/
theorem c8_status_condition_machine (inp : StatusCalcInput) :
    (inp.syncSuccess = true →
      (calculateNdbClusterStatusV1 inp).processedGeneration = inp.generation ∧
      (calculateNdbClusterStatusV1alpha1 inp).processedGeneration = inp.generation ∧
      (calculateNdbClusterStatusV1 inp).conditions =
        [⟨NdbClusterUpToDate, ConditionTrue, ReasonSyncSuccess,
          ("NdbCluster Spec generation " ++ toString inp.generation ++ " was successfully applied to the MySQL Cluster")⟩] ∧
      (calculateNdbClusterStatusV1alpha1 inp).conditions =
        [⟨NdbClusterUpToDate, ConditionTrue, ReasonSyncSuccess,
          ("NdbCluster Spec generation " ++ toString inp.generation ++ " was successfully applied to the MySQL Cluster")⟩]) ∧
    (inp.syncSuccess = false →
      (calculateNdbClusterStatusV1 inp).processedGeneration = inp.prevProcessedGeneration ∧
      (calculateNdbClusterStatusV1alpha1 inp).processedGeneration = inp.generation - 1) ∧
    (inp.syncSuccess = false → inp.podErrorMsgs ≠ [] →
      (calculateNdbClusterStatusV1 inp).conditions =
        [⟨NdbClusterUpToDate, ConditionFalse, ReasonError,
          String.intercalate "\n" inp.podErrorMsgs⟩]) ∧
    (inp.syncSuccess = false → inp.podErrorMsgs = [] → inp.generation = 1 →
      (calculateNdbClusterStatusV1 inp).conditions =
        [⟨NdbClusterUpToDate, ConditionFalse, ReasonISR, "MySQL Cluster is starting up"⟩]) ∧
    (inp.syncSuccess = false → inp.generation = 1 →
      (calculateNdbClusterStatusV1alpha1 inp).conditions =
        [⟨NdbClusterUpToDate, ConditionFalse, ReasonISR, "MySQL Cluster is starting up"⟩]) ∧
    (inp.syncSuccess = false → inp.podErrorMsgs = [] → inp.generation ≠ 1 →
      (calculateNdbClusterStatusV1 inp).conditions =
        [⟨NdbClusterUpToDate, ConditionFalse, ReasonSpecUpdateInProgress,
          ("NdbCluster spec generation " ++ toString inp.generation ++ " is being applied to the MySQL Cluster")⟩]) ∧
    (inp.syncSuccess = false → inp.generation ≠ 1 →
      (calculateNdbClusterStatusV1alpha1 inp).conditions =
        [⟨NdbClusterUpToDate, ConditionFalse, ReasonSpecUpdateInProgress,
          ("NdbCluster spec generation " ++ toString inp.generation ++ " is being applied to the MySQL Cluster")⟩]) := by
  refine ⟨?_, ?_, ?_, ?_, ?_, ?_, ?_⟩
  · intro h
    simp [calculateNdbClusterStatusV1, calculateNdbClusterStatusV1alpha1, h]
  · intro h
    constructor
    · by_cases hpe : inp.podErrorMsgs = [] <;> by_cases hg : inp.generation = 1 <;>
        simp [calculateNdbClusterStatusV1, h, hpe, hg]
    · by_cases hg : inp.generation = 1 <;>
        simp [calculateNdbClusterStatusV1alpha1, h, hg]
  · intro h hpe
    simp [calculateNdbClusterStatusV1, h, hpe]
  · intro h hpe hg
    simp [calculateNdbClusterStatusV1, h, hpe, hg]
  · intro h hg
    simp [calculateNdbClusterStatusV1alpha1, h, hg]
  · intro h hpe hg
    simp [calculateNdbClusterStatusV1, h, hpe, hg]
  · intro h hg
    simp [calculateNdbClusterStatusV1alpha1, h, hg]

/-- C8 witness: the amended machine at two concrete inputs — a successful
sync at generation 3, and a generation-1 sync in progress with no pod
errors. -/
theorem c8_status_condition_machine_witness :
    (calculateNdbClusterStatusV1alpha1
        ⟨3, 2, 2, 2, 0, some 2, some 2, none, "", false, true, []⟩).processedGeneration = 3 ∧
    (calculateNdbClusterStatusV1
        ⟨1, 0, 2, 2, 0, some 2, some 2, none, "", false, false, []⟩).conditions =
      [⟨NdbClusterUpToDate, ConditionFalse, ReasonISR, "MySQL Cluster is starting up"⟩] :=
  ⟨((c8_status_condition_machine
      ⟨3, 2, 2, 2, 0, some 2, some 2, none, "", false, true, []⟩).1 rfl).2.1,
    (c8_status_condition_machine
      ⟨1, 0, 2, 2, 0, some 2, some 2, none, "", false, false, []⟩).2.2.2.1 rfl rfl rfl⟩

/-! ## C5 — config rendering and the DNS lookup -/

set_option maxRecDepth 4000 in
/-- C5 counterexample: `GetConfigString` consults the environment through
`net.LookupCNAME("kubernetes.default.svc")`; rendering the same spec with
the same previous summary under a failed lookup and under a resolved
cluster domain yields different bytes (the hostname suffixes differ), so
the output is not a function of (spec, prev) alone. -/
theorem c5_counterexample :
    GetConfigString ⟨"c", "n", 1, ⟨2, 0, none, 0, [], []⟩⟩ none none ≠
      GetConfigString ⟨"c", "n", 1, ⟨2, 0, none, 0, [], []⟩⟩ none
        (some "kubernetes.default.svc.cluster.local.") := by
  decide

/-- C5 (amended): re-rendering the same spec with the same previous
summary yields byte-identical output provided the DNS-derived hostname
suffix resolves the same; the rendering is a function of the resource, the
previous summary and the hostname suffix only, and a failed lookup falls
back to the bare namespace. -/
theorem c5_render_deterministic_given_dns (nc : NdbCluster)
    (oldConfigSummary : Option ConfigSummary) (dns₁ dns₂ : Option String)
    (h : GetHostnameSuffix nc.nsName dns₁ = GetHostnameSuffix nc.nsName dns₂) :
    GetConfigString nc oldConfigSummary dns₁ = GetConfigString nc oldConfigSummary dns₂ ∧
    GetHostnameSuffix nc.nsName none = nc.nsName := by
  exact ⟨by unfold GetConfigString; rw [h], rfl⟩

/-- C5 witness: a resolved CNAME of `kubernetes.default.` (empty cluster
domain) yields the same suffix as a failed lookup, hence byte-identical
output. -/
theorem c5_render_deterministic_given_dns_witness :
    GetConfigString ⟨"c", "n", 1, ⟨2, 2, none, 0, [], []⟩⟩ none none =
      GetConfigString ⟨"c", "n", 1, ⟨2, 2, none, 0, [], []⟩⟩ none
        (some "kubernetes.default.") ∧
    GetHostnameSuffix "n" none = "n" :=
  c5_render_deterministic_given_dns ⟨"c", "n", 1, ⟨2, 2, none, 0, [], []⟩⟩ none
    none (some "kubernetes.default.") (by decide)

/-- C9 witness: the amended characterization at a concrete pair of equal
statuses with empty `Conditions` — the comparison reaches the indexing and
panics. -/
theorem c9_statusEqual_oob_witness :
    statusEqualV1alpha1 ⟨1, "", "", "", "", []⟩ ⟨1, "", "", "", "", []⟩ = none :=
  ((c9_statusEqual_oob_exactly_after_scalar_equality
      ⟨1, "", "", "", "", []⟩ ⟨1, "", "", "", "", []⟩).1).mpr
    ⟨⟨rfl, rfl, rfl, rfl, rfl⟩, Or.inl rfl⟩

/-- C10 witness: with node 1 outdated, a StopNodes oracle that always
fails yields the same verdict as one that always succeeds. -/
theorem c10_mgmt_stop_error_not_propagated_witness :
    (ensureManagementServerConfigVersion 2 2 (fun _ => true) (fun _ => some 1)
        (fun _ => false)).result =
      (ensureManagementServerConfigVersion 2 2 (fun _ => true) (fun _ => some 1)
        (fun _ => true)).result :=
  (c10_mgmt_stop_error_not_propagated 2 2 (fun _ => true) (fun _ => some 1)
    (fun _ => false) (fun _ => true)).1
